import Mathlib

/-!
Shallow embedding of `decision_engine.py`, a deterministic fraud-risk rule
engine, together with theorems settling the specification claims about it.

Modelling conventions:
* A pandas cell value is modelled by `PyVal` (string, int, float-as-rational,
  or None).  A row is a structure of `Option PyVal` fields; `row.get(f, d)`
  becomes `(row.f).getD d`.
* Python `dict.get(key, 0)` weight tables are embedded as total functions
  `String → Int` that already include the default; likewise the amount
  threshold table `d.get(p, d.get("_default"))` is a total `String → ℚ`.
* Python `int(...)` / `float(...)` on the values in scope are modelled by
  `pyInt?` / `pyFloat?` returning `none` where Python would raise; `safe_int`
  and `safe_float` catch that and substitute the default, exactly as the
  `try/except` in the source.
* Reason strings are built structurally (`Reason`) carrying the same data as
  the f-strings in the source; `Reason.render` produces the string.  Float
  formatting in `render` is an approximation of Python `str(float)`; no claim
  depends on it.
-/

/-- Model of a Python scalar cell value as it can appear in a row. -/
inductive PyVal where
  | vStr (s : String)
  | vInt (n : Int)
  | vFloat (q : ℚ)
  | vNone
deriving Repr, DecidableEq

open PyVal

/-- ASCII lowercasing, modelling Python `str.lower()` on the ASCII tier names
used by the engine. -/
def strLower (s : String) : String :=
  String.mk (s.toList.map Char.toLower)

/-- ASCII uppercasing, modelling Python `str.upper()` on the country codes. -/
def strUpper (s : String) : String :=
  String.mk (s.toList.map Char.toUpper)

/-- Strip leading and trailing whitespace, as Python `int`/`float` do before
parsing a string. -/
def stripChars (cs : List Char) : List Char :=
  ((cs.dropWhile Char.isWhitespace).reverse.dropWhile Char.isWhitespace).reverse

/-- Split a character list on `.` separators. -/
def splitDot (cs : List Char) : List (List Char) :=
  cs.foldr
    (fun c acc =>
      match acc with
      | [] => if c = '.' then [[], []] else [[c]]
      | h :: t => if c = '.' then [] :: h :: t else (c :: h) :: t)
    [[]]

/-- Parse the digits of a nonempty decimal string, as Python `int` does for the
digit part. -/
def parseDigits? (cs : List Char) : Option Nat :=
  if cs.isEmpty then none
  else if cs.all Char.isDigit then
    some (cs.foldl (fun a c => a * 10 + (c.toNat - 48)) 0)
  else none

/-- Like `parseDigits?` but an empty list parses as 0 (used for the integer or
fractional part of a decimal literal when the other part is present). -/
def parseDigitsOpt? (cs : List Char) : Option Nat :=
  if cs.all Char.isDigit then
    some (cs.foldl (fun a c => a * 10 + (c.toNat - 48)) 0)
  else none

/-- Model of Python `int(s)` for a string `s`: strip whitespace, optional
sign, then decimal digits; anything else raises (here: `none`). -/
def pyIntOfString? (s : String) : Option Int :=
  match stripChars s.toList with
  | '+' :: rest => (parseDigits? rest).map Int.ofNat
  | '-' :: rest => (parseDigits? rest).map (fun n => -(n : Int))
  | l => (parseDigits? l).map Int.ofNat

/-- Model of Python `float(s)` for a string `s`: optional sign, then either
plain digits or a decimal point with digits on at least one side. -/
def pyFloatOfString? (s : String) : Option ℚ :=
  let withSign : ℚ × List Char :=
    match stripChars s.toList with
    | '+' :: rest => (1, rest)
    | '-' :: rest => (-1, rest)
    | l => (1, l)
  let sign := withSign.1
  let body := withSign.2
  match splitDot body with
  | [a] => (parseDigits? a).map (fun n => sign * n)
  | [a, b] =>
    if a.isEmpty && b.isEmpty then none
    else
      match parseDigitsOpt? a, parseDigitsOpt? b with
      | some ia, some ib => some (sign * ((ia : ℚ) + (ib : ℚ) / ((10 : ℚ) ^ b.length)))
      | _, _ => none
  | _ => none

/-- Python truncation toward zero, used by `int(float)`. -/
def pyTrunc (q : ℚ) : Int :=
  if 0 ≤ q then ⌊q⌋ else ⌈q⌉

/-- Model of Python `str(val)`. -/
def pyStr : PyVal → String
  | vStr s => s
  | vInt n => toString n
  | vFloat q => toString q
  | vNone => "None"

/-- Model of Python `int(val)`: `none` where Python raises. -/
def pyInt? : PyVal → Option Int
  | vStr s => pyIntOfString? s
  | vInt n => some n
  | vFloat q => some (pyTrunc q)
  | vNone => none

/-- Model of Python `float(val)`: `none` where Python raises. -/
def pyFloat? : PyVal → Option ℚ
  | vStr s => pyFloatOfString? s
  | vInt n => some (n : ℚ)
  | vFloat q => some q
  | vNone => none

/-- Embeds `safe_int` of `decision_engine.py` (lines 53-57):
`try: return int(val); except: return default`. -/
def safe_int (val : PyVal) (default : Int) : Int :=
  (pyInt? val).getD default

/-- Embeds `safe_float` of `decision_engine.py` (lines 60-64). -/
def safe_float (val : PyVal) (default : ℚ) : ℚ :=
  (pyFloat? val).getD default

/-- Embeds `is_night` of `decision_engine.py` (lines 49-50). -/
def is_night (hour : Int) : Bool :=
  decide (hour ≥ 22) || decide (hour ≤ 5)

/-- Embeds `high_amount` of `decision_engine.py` (lines 67-69).  The
`thresholds` function embeds `thresholds.get(product_type,
thresholds.get("_default"))` as a total lookup. -/
def high_amount (amount : ℚ) (product_type : String) (thresholds : String → ℚ) : Bool :=
  decide (amount ≥ thresholds product_type)

/-- Transaction row: each relevant field is optionally present, mirroring
`row.get(field, default)` access in the source. -/
structure Row where
  chargeback_count : Option PyVal
  ip_risk : Option PyVal
  email_risk : Option PyVal
  device_fingerprint_risk : Option PyVal
  user_reputation : Option PyVal
  hour : Option PyVal
  bin_country : Option PyVal
  ip_country : Option PyVal
  amount_mxn : Option PyVal
  product_type : Option PyVal
  latency_ms : Option PyVal
  customer_txn_30d : Option PyVal
deriving Repr, DecidableEq

/-- The row with every field absent. -/
def emptyRow : Row :=
  { chargeback_count := none, ip_risk := none, email_risk := none
    device_fingerprint_risk := none, user_reputation := none, hour := none
    bin_country := none, ip_country := none, amount_mxn := none
    product_type := none, latency_ms := none, customer_txn_30d := none }

/-- Embeds the `score_weights` sub-dictionary of the configuration; the
categorical tables embed `mapping.get(val, 0)` as total functions. -/
structure ScoreWeights where
  ip_risk : String → Int
  email_risk : String → Int
  device_fingerprint_risk : String → Int
  user_reputation : String → Int
  night_hour : Int
  geo_mismatch : Int
  high_amount : Int
  latency_extreme : Int
  new_user_high_amount : Int

/-- Embeds the `score_to_decision` sub-dictionary of the configuration. -/
structure ScoreToDecision where
  reject_at : Int
  review_at : Int
deriving Repr, DecidableEq

/-- Embeds the configuration dictionary of `decision_engine.py`. -/
structure Config where
  amount_thresholds : String → ℚ
  latency_ms_extreme : Int
  chargeback_hard_block : Int
  score_weights : ScoreWeights
  score_to_decision : ScoreToDecision

def DECISION_ACCEPTED : String := "ACCEPTED"
def DECISION_IN_REVIEW : String := "IN_REVIEW"
def DECISION_REJECTED : String := "REJECTED"

/-- Structured reason entries; each constructor carries the data the source
code interpolates into the corresponding f-string. -/
inductive Reason where
  | hardBlock
  | categorical (field val : String) (add : Int)
  | reputation (rep : String) (add : Int)
  | nightHour (hr : Int) (add : Int)
  | geoMismatch (binC ipC : String) (add : Int)
  | highAmount (ptype : String) (amount : ℚ) (add : Int)
  | newUserHighAmount (add : Int)
  | latencyExtreme (lat : Int) (add : Int)
  | frequencyBuffer
deriving Repr, DecidableEq

/-- Renders an integer with an explicit `+` for nonnegatives, as the source
writes `('+' if rep_add>=0 else '') + str(rep_add)`. -/
def intWithSign (n : Int) : String :=
  if n ≥ 0 then s!"+{n}" else toString n

/-- Renders a reason entry to the string the source code builds. -/
def Reason.render : Reason → String
  | .hardBlock => "hard_block:chargebacks>=2+ip_high"
  | .categorical field val add => s!"{field}:{val}(+{add})"
  | .reputation rep add =>
    let sgn := intWithSign add
    s!"user_reputation:{rep}({sgn})"
  | .nightHour hr add => s!"night_hour:{hr}(+{add})"
  | .geoMismatch binC ipC add => s!"geo_mismatch:{binC}!={ipC}(+{add})"
  | .highAmount ptype amount add =>
    let amt := toString amount
    s!"high_amount:{ptype}:{amt}(+{add})"
  | .newUserHighAmount add => s!"new_user_high_amount(+{add})"
  | .latencyExtreme lat add => s!"latency_extreme:{lat}ms(+{add})"
  | .frequencyBuffer => "frequency_buffer(-1)"

/-- The signed delta named inside a reason string (`(+d)` or `(d)`); the
hard-block reason names no delta and is assigned 0. -/
def Reason.delta : Reason → Int
  | .hardBlock => 0
  | .categorical _ _ a => a
  | .reputation _ a => a
  | .nightHour _ a => a
  | .geoMismatch _ _ a => a
  | .highAmount _ _ a => a
  | .newUserHighAmount a => a
  | .latencyExtreme _ a => a
  | .frequencyBuffer => -1

/-- Result of assessing a row.  `reasons` keeps the ordered structured list;
the output string of the source is `String.intercalate ";"` of the rendered
entries. -/
structure AssessResult where
  decision : String
  risk_score : Int
  reasons : List Reason
deriving Repr, DecidableEq

/-- The semicolon-joined reasons string of the source output. -/
def AssessResult.reasonsStr (r : AssessResult) : String :=
  String.intercalate ";" (r.reasons.map Reason.render)

/-- Embeds `_check_chargeback_hard_block` of `decision_engine.py`
(lines 72-76). -/
def check_chargeback_hard_block (row : Row) (cfg : Config) : Option AssessResult :=
  if safe_int ((row.chargeback_count).getD (vInt 0)) 0 ≥ cfg.chargeback_hard_block ∧
      strLower (pyStr ((row.ip_risk).getD (vStr "low"))) = "high" then
    some { decision := DECISION_REJECTED, risk_score := 100, reasons := [Reason.hardBlock] }
  else none

/-- One iteration of the field loop in `_categorical_score_and_reasons`. -/
def categorical_one (field : String) (fieldVal : Option PyVal) (mapping : String → Int) :
    Int × List Reason :=
  let val := strLower (pyStr (fieldVal.getD (vStr "low")))
  let add := mapping val
  (add, if add ≠ 0 then [Reason.categorical field val add] else [])

/-- Embeds `_categorical_score_and_reasons` of `decision_engine.py`
(lines 79-90), unrolling its three-element loop. -/
def categorical_score_and_reasons (row : Row) (cfg : Config) : Int × List Reason :=
  let r1 := categorical_one "ip_risk" row.ip_risk cfg.score_weights.ip_risk
  let r2 := categorical_one "email_risk" row.email_risk cfg.score_weights.email_risk
  let r3 := categorical_one "device_fingerprint_risk" row.device_fingerprint_risk
    cfg.score_weights.device_fingerprint_risk
  (r1.1 + r2.1 + r3.1, r1.2 ++ r2.2 ++ r3.2)

/-- Embeds `_reputation_score` of `decision_engine.py` (lines 93-99). -/
def reputation_score (row : Row) (cfg : Config) : String × Int × Option Reason :=
  let rep := strLower (pyStr ((row.user_reputation).getD (vStr "new")))
  let rep_add := cfg.score_weights.user_reputation rep
  (rep, rep_add, if rep_add ≠ 0 then some (Reason.reputation rep rep_add) else none)

/-- Embeds `_night_score` of `decision_engine.py` (lines 102-107). -/
def night_score (row : Row) (cfg : Config) : Int × Option Reason :=
  let hr := safe_int ((row.hour).getD (vInt 12)) 0
  if is_night hr then
    (cfg.score_weights.night_hour, some (Reason.nightHour hr cfg.score_weights.night_hour))
  else (0, none)

/-- Embeds `_geo_mismatch_score` of `decision_engine.py` (lines 110-116). -/
def geo_mismatch_score (row : Row) (cfg : Config) : Int × Option Reason :=
  let bin_c := strUpper (pyStr ((row.bin_country).getD (vStr "")))
  let ip_c := strUpper (pyStr ((row.ip_country).getD (vStr "")))
  if bin_c ≠ "" ∧ ip_c ≠ "" ∧ bin_c ≠ ip_c then
    (cfg.score_weights.geo_mismatch, some (Reason.geoMismatch bin_c ip_c cfg.score_weights.geo_mismatch))
  else (0, none)

/-- Embeds `_amount_score` of `decision_engine.py` (lines 119-131). -/
def amount_score (row : Row) (cfg : Config) (rep : String) : Int × List Reason :=
  let amount := safe_float ((row.amount_mxn).getD (vFloat 0)) 0
  let ptype := strLower (pyStr ((row.product_type).getD (vStr "_default")))
  if high_amount amount ptype cfg.amount_thresholds then
    let add := cfg.score_weights.high_amount
    if rep = "new" then
      let add2 := cfg.score_weights.new_user_high_amount
      (add + add2, [Reason.highAmount ptype amount add, Reason.newUserHighAmount add2])
    else
      (add, [Reason.highAmount ptype amount add])
  else (0, [])

/-- Embeds `_latency_score` of `decision_engine.py` (lines 134-139). -/
def latency_score (row : Row) (cfg : Config) : Int × Option Reason :=
  let lat := safe_int ((row.latency_ms).getD (vInt 0)) 0
  if lat ≥ cfg.latency_ms_extreme then
    (cfg.score_weights.latency_extreme, some (Reason.latencyExtreme lat cfg.score_weights.latency_extreme))
  else (0, none)

/-- Embeds `_apply_frequency_buffer` of `decision_engine.py` (lines 142-146). -/
def apply_frequency_buffer (row : Row) (rep : String) (score : Int) : Int × Option Reason :=
  let freq := safe_int ((row.customer_txn_30d).getD (vInt 0)) 0
  if (rep = "recurrent" ∨ rep = "trusted") ∧ freq ≥ 3 ∧ score > 0 then
    (-1, some Reason.frequencyBuffer)
  else (0, none)

/-- Embeds `_map_score_to_decision` of `decision_engine.py` (lines 149-155);
note the strict `>` on the reject boundary. -/
def map_score_to_decision (score : Int) (cfg : Config) : String :=
  if score > cfg.score_to_decision.reject_at then DECISION_REJECTED
  else if score ≥ cfg.score_to_decision.review_at then DECISION_IN_REVIEW
  else DECISION_ACCEPTED

/-- Embeds `assess_row` of `decision_engine.py` (lines 158-214): hard-block
short-circuit, then the six scoring steps accumulated in order, then the
frequency buffer on the running score, then the decision mapping. -/
def assess_row (row : Row) (cfg : Config) : AssessResult :=
  match check_chargeback_hard_block row cfg with
  | some hb => hb
  | none =>
    let cat := categorical_score_and_reasons row cfg
    let repT := reputation_score row cfg
    let rep := repT.1
    let night := night_score row cfg
    let geo := geo_mismatch_score row cfg
    let amt := amount_score row cfg rep
    let lat := latency_score row cfg
    let score := cat.1 + repT.2.1 + night.1 + geo.1 + amt.1 + lat.1
    let fb := apply_frequency_buffer row rep score
    let score2 := score + fb.1
    let reasons := cat.2 ++ repT.2.2.toList ++ night.2.toList ++ geo.2.toList ++
      amt.2 ++ lat.2.toList ++ fb.2.toList
    { decision := map_score_to_decision score2 cfg, risk_score := score2, reasons := reasons }

/-- Embeds `DEFAULT_CONFIG` of `decision_engine.py` (lines 11-35); each dict
lookup-with-default is embedded as the corresponding total function. -/
def DEFAULT_CONFIG : Config :=
  { amount_thresholds := fun p =>
      if p = "digital" then 2500
      else if p = "physical" then 6000
      else if p = "subscription" then 1500
      else 4000
    latency_ms_extreme := 2500
    chargeback_hard_block := 2
    score_weights :=
      { ip_risk := fun v => if v = "low" then 0 else if v = "medium" then 2
          else if v = "high" then 4 else 0
        email_risk := fun v => if v = "low" then 0 else if v = "medium" then 1
          else if v = "high" then 3 else if v = "new_domain" then 2 else 0
        device_fingerprint_risk := fun v => if v = "low" then 0 else if v = "medium" then 2
          else if v = "high" then 4 else 0
        user_reputation := fun v => if v = "trusted" then -2 else if v = "recurrent" then -1
          else if v = "new" then 0 else if v = "high_risk" then 4 else 0
        night_hour := 1
        geo_mismatch := 2
        high_amount := 2
        latency_extreme := 2
        new_user_high_amount := 2 }
    score_to_decision := { reject_at := 10, review_at := 4 } }

/-- Embeds the environment-override block of `decision_engine.py`
(lines 38-46): both overrides run inside a single `try`, `REJECT_AT` first,
and the first `int(...)` failure aborts the rest of the block while keeping
whatever was already applied. -/
def applyEnvOverrides (cfg : Config) (rej rev : Option String) : Config :=
  match rej with
  | none =>
    match rev with
    | none => cfg
    | some s =>
      match pyIntOfString? s with
      | none => cfg
      | some m =>
        { cfg with score_to_decision := { cfg.score_to_decision with review_at := m } }
  | some s =>
    match pyIntOfString? s with
    | none => cfg
    | some n =>
      let cfg1 := { cfg with score_to_decision := { cfg.score_to_decision with reject_at := n } }
      match rev with
      | none => cfg1
      | some s2 =>
        match pyIntOfString? s2 with
        | none => cfg1
        | some m =>
          { cfg1 with score_to_decision := { cfg1.score_to_decision with review_at := m } }

/-! ### Derived views of the assessment, proved to coincide with `assess_row` -/

/-- The fixed result the hard block returns. -/
def hardBlockResult : AssessResult :=
  { decision := DECISION_REJECTED, risk_score := 100, reasons := [Reason.hardBlock] }

/-- The reputation tier resolved in the reputation step (independent of the
configuration). -/
def resolvedRep (row : Row) : String :=
  strLower (pyStr ((row.user_reputation).getD (vStr "new")))

/-- The running score after the six scoring steps, before the frequency
buffer. -/
def preBufferScore (row : Row) (cfg : Config) : Int :=
  (categorical_score_and_reasons row cfg).1 + (reputation_score row cfg).2.1 +
    (night_score row cfg).1 + (geo_mismatch_score row cfg).1 +
    (amount_score row cfg (resolvedRep row)).1 + (latency_score row cfg).1

/-- The final score, after the frequency buffer. -/
def finalScore (row : Row) (cfg : Config) : Int :=
  preBufferScore row cfg +
    (apply_frequency_buffer row (resolvedRep row) (preBufferScore row cfg)).1

/-- The full ordered reason list of a non-hard-blocked assessment. -/
def assessReasonList (row : Row) (cfg : Config) : List Reason :=
  (categorical_score_and_reasons row cfg).2 ++ (reputation_score row cfg).2.2.toList ++
    (night_score row cfg).2.toList ++ (geo_mismatch_score row cfg).2.toList ++
    (amount_score row cfg (resolvedRep row)).2 ++ (latency_score row cfg).2.toList ++
    (apply_frequency_buffer row (resolvedRep row) (preBufferScore row cfg)).2.toList

/-! ### Concrete rows and configurations used as evaluation witnesses -/

/-- A row triggering the hard block (case-insensitive `ip_risk`). -/
def rowHardBlock : Row :=
  { emptyRow with chargeback_count := some (vInt 3), ip_risk := some (vStr "HIGH") }

/-- A row whose final default-config score is exactly 10 (4+3+2+1). -/
def rowScore10 : Row :=
  { emptyRow with
      ip_risk := some (vStr "high"), email_risk := some (vStr "high"),
      device_fingerprint_risk := some (vStr "medium"), hour := some (vInt 23) }

/-- A row whose final default-config score is exactly 9 (4+3+2). -/
def rowScore9 : Row :=
  { emptyRow with
      ip_risk := some (vStr "high"), email_risk := some (vStr "high"),
      device_fingerprint_risk := some (vStr "medium") }

/-- A row whose final default-config score is exactly 4. -/
def rowScore4 : Row := { emptyRow with ip_risk := some (vStr "high") }

/-- A row whose final default-config score is exactly 3. -/
def rowScore3 : Row := { emptyRow with email_risk := some (vStr "high") }

/-- The all-signals scenario row of the specification (score 22). -/
def rowScenario : Row :=
  { emptyRow with
      ip_risk := some (vStr "high"), email_risk := some (vStr "high"),
      device_fingerprint_risk := some (vStr "high"), user_reputation := some (vStr "high_risk"),
      hour := some (vInt 2), bin_country := some (vStr "BR"), ip_country := some (vStr "MX"),
      amount_mxn := some (vFloat 10000), product_type := some (vStr "physical"),
      latency_ms := some (vInt 5000), customer_txn_30d := some (vInt 0) }

/-- A trusted, frequent customer with pre-buffer score exactly 1. -/
def rowBuffer : Row :=
  { emptyRow with
      ip_risk := some (vStr "medium"), email_risk := some (vStr "medium"),
      user_reputation := some (vStr "trusted"), customer_txn_30d := some (vInt 5) }

/-- A row whose `hour` field is present but not parseable as a number. -/
def rowBadHour : Row := { emptyRow with hour := some (vStr "abc") }

/-- A new-reputation row at the physical-product amount threshold. -/
def rowNewHighAmt : Row :=
  { emptyRow with amount_mxn := some (vFloat 10000), product_type := some (vStr "physical") }

/-- The same high-amount row with trusted reputation. -/
def rowTrustedHighAmt : Row :=
  { rowNewHighAmt with user_reputation := some (vStr "trusted") }

/-- The default configuration with a non-default hard-block threshold. -/
def cfgHardBlock5 : Config := { DEFAULT_CONFIG with chargeback_hard_block := 5 }

/-- A row with seven chargebacks and high ip risk, hard-blocked even under
`cfgHardBlock5`. -/
def rowChargeback7 : Row :=
  { emptyRow with chargeback_count := some (vInt 7), ip_risk := some (vStr "high") }

lemma check_hard_block_cases (row : Row) (cfg : Config) :
    check_chargeback_hard_block row cfg = none ∨
      check_chargeback_hard_block row cfg = some hardBlockResult := by
  unfold check_chargeback_hard_block
  split
  · exact Or.inr rfl
  · exact Or.inl rfl

lemma assess_row_blocked (row : Row) (cfg : Config)
    (h : check_chargeback_hard_block row cfg = some hardBlockResult) :
    assess_row row cfg = hardBlockResult := by
  unfold assess_row
  rw [h]

lemma assess_row_not_blocked (row : Row) (cfg : Config)
    (h : check_chargeback_hard_block row cfg = none) :
    assess_row row cfg =
      { decision := map_score_to_decision (finalScore row cfg) cfg
        risk_score := finalScore row cfg
        reasons := assessReasonList row cfg } := by
  unfold assess_row
  rw [h]
  rfl


/-! ### Shape of each step's reason output -/

lemma categorical_one_shape {field : String} {fv : Option PyVal} {m : String → Int} {r : Reason}
    (h : r ∈ (categorical_one field fv m).2) : ∃ f v a, a ≠ 0 ∧ r = Reason.categorical f v a := by
  simp only [categorical_one] at h
  split at h
  · rename_i ha
    rcases List.mem_singleton.mp h with rfl
    exact ⟨_, _, _, ha, rfl⟩
  · cases h

lemma categorical_shape {row : Row} {cfg : Config} {r : Reason}
    (h : r ∈ (categorical_score_and_reasons row cfg).2) :
    ∃ f v a, a ≠ 0 ∧ r = Reason.categorical f v a := by
  simp only [categorical_score_and_reasons, List.mem_append] at h
  rcases h with (h' | h') | h'
  · exact categorical_one_shape h'
  · exact categorical_one_shape h'
  · exact categorical_one_shape h'

lemma reputation_shape {row : Row} {cfg : Config} {r : Reason}
    (h : r ∈ (reputation_score row cfg).2.2.toList) :
    ∃ s a, a ≠ 0 ∧ r = Reason.reputation s a := by
  simp only [reputation_score] at h
  split at h
  · rename_i ha
    rcases List.mem_singleton.mp h with rfl
    exact ⟨_, _, ha, rfl⟩
  · cases h

lemma night_shape {row : Row} {cfg : Config} {r : Reason}
    (h : r ∈ (night_score row cfg).2.toList) :
    ∃ hr, r = Reason.nightHour hr cfg.score_weights.night_hour := by
  simp only [night_score] at h
  split at h
  · rcases List.mem_singleton.mp h with rfl
    exact ⟨_, rfl⟩
  · cases h

lemma geo_shape {row : Row} {cfg : Config} {r : Reason}
    (h : r ∈ (geo_mismatch_score row cfg).2.toList) :
    ∃ b i, r = Reason.geoMismatch b i cfg.score_weights.geo_mismatch := by
  simp only [geo_mismatch_score] at h
  split at h
  · rcases List.mem_singleton.mp h with rfl
    exact ⟨_, _, rfl⟩
  · cases h

lemma amount_shape {row : Row} {cfg : Config} {rep : String} {r : Reason}
    (h : r ∈ (amount_score row cfg rep).2) :
    (∃ p q, r = Reason.highAmount p q cfg.score_weights.high_amount) ∨
      (rep = "new" ∧ r = Reason.newUserHighAmount cfg.score_weights.new_user_high_amount) := by
  simp only [amount_score] at h
  split at h
  · split at h
    · rename_i hnew
      rcases List.mem_cons.mp h with rfl | h
      · exact Or.inl ⟨_, _, rfl⟩
      · rcases List.mem_singleton.mp h with rfl
        exact Or.inr ⟨hnew, rfl⟩
    · rcases List.mem_singleton.mp h with rfl
      exact Or.inl ⟨_, _, rfl⟩
  · cases h

lemma latency_shape {row : Row} {cfg : Config} {r : Reason}
    (h : r ∈ (latency_score row cfg).2.toList) :
    ∃ l, r = Reason.latencyExtreme l cfg.score_weights.latency_extreme := by
  simp only [latency_score] at h
  split at h
  · rcases List.mem_singleton.mp h with rfl
    exact ⟨_, rfl⟩
  · cases h

lemma buffer_shape {row : Row} {rep : String} {score : Int} {r : Reason}
    (h : r ∈ (apply_frequency_buffer row rep score).2.toList) : r = Reason.frequencyBuffer := by
  simp only [apply_frequency_buffer] at h
  split at h
  · exact List.mem_singleton.mp h
  · cases h

/-! ### Each step's reported deltas sum to its score contribution -/

lemma categorical_one_delta (field : String) (fv : Option PyVal) (m : String → Int) :
    ((categorical_one field fv m).2.map Reason.delta).sum = (categorical_one field fv m).1 := by
  simp only [categorical_one]
  split
  · simp [Reason.delta]
  · rename_i ha
    simp only [List.map_nil, List.sum_nil]
    omega

lemma categorical_delta (row : Row) (cfg : Config) :
    ((categorical_score_and_reasons row cfg).2.map Reason.delta).sum =
      (categorical_score_and_reasons row cfg).1 := by
  simp only [categorical_score_and_reasons, List.map_append, List.sum_append,
    categorical_one_delta]

lemma reputation_delta (row : Row) (cfg : Config) :
    (((reputation_score row cfg).2.2.toList).map Reason.delta).sum =
      (reputation_score row cfg).2.1 := by
  simp only [reputation_score]
  split
  · simp [Reason.delta]
  · rename_i ha
    simp only [Option.toList_none, List.map_nil, List.sum_nil]
    omega

lemma night_delta (row : Row) (cfg : Config) :
    (((night_score row cfg).2.toList).map Reason.delta).sum = (night_score row cfg).1 := by
  simp only [night_score]
  split <;> simp [Reason.delta]

lemma geo_delta (row : Row) (cfg : Config) :
    (((geo_mismatch_score row cfg).2.toList).map Reason.delta).sum =
      (geo_mismatch_score row cfg).1 := by
  simp only [geo_mismatch_score]
  split <;> simp [Reason.delta]

lemma amount_delta (row : Row) (cfg : Config) (rep : String) :
    (((amount_score row cfg rep).2).map Reason.delta).sum = (amount_score row cfg rep).1 := by
  simp only [amount_score]
  split
  · split <;> simp [Reason.delta]
  · simp

lemma latency_delta (row : Row) (cfg : Config) :
    (((latency_score row cfg).2.toList).map Reason.delta).sum = (latency_score row cfg).1 := by
  simp only [latency_score]
  split <;> simp [Reason.delta]

lemma buffer_delta (row : Row) (rep : String) (score : Int) :
    (((apply_frequency_buffer row rep score).2.toList).map Reason.delta).sum =
      (apply_frequency_buffer row rep score).1 := by
  simp only [apply_frequency_buffer]
  split <;> simp [Reason.delta]

/-! ### Claim theorems -/

lemma assess_decision_eq_map (row : Row) (cfg : Config)
    (h100 : (assess_row row cfg).risk_score ≠ 100) :
    (assess_row row cfg).decision =
      map_score_to_decision (assess_row row cfg).risk_score cfg := by
  rcases check_hard_block_cases row cfg with h | h
  · rw [assess_row_not_blocked row cfg h]
  · rw [assess_row_blocked row cfg h] at h100 ⊢
    exact absurd rfl h100

/-- C1 (amended): a final score strictly above `reject_at` decides REJECTED
(the code maps a score equal to `reject_at` to review); with the default
config a final score of exactly 10 (= `reject_at`) decides IN_REVIEW, scores
9 and 4 decide IN_REVIEW, and 3 decides ACCEPTED. -/
theorem decision_boundary_spec (row : Row) (cfg : Config) :
    ((assess_row row cfg).risk_score > cfg.score_to_decision.reject_at →
      (assess_row row cfg).decision = DECISION_REJECTED) ∧
    ((assess_row row DEFAULT_CONFIG).risk_score = 10 →
      (assess_row row DEFAULT_CONFIG).decision = DECISION_IN_REVIEW) ∧
    ((assess_row row DEFAULT_CONFIG).risk_score = 9 →
      (assess_row row DEFAULT_CONFIG).decision = DECISION_IN_REVIEW) ∧
    ((assess_row row DEFAULT_CONFIG).risk_score = 4 →
      (assess_row row DEFAULT_CONFIG).decision = DECISION_IN_REVIEW) ∧
    ((assess_row row DEFAULT_CONFIG).risk_score = 3 →
      (assess_row row DEFAULT_CONFIG).decision = DECISION_ACCEPTED) := by
  refine ⟨?_, ?_, ?_, ?_, ?_⟩
  · intro hgt
    rcases check_hard_block_cases row cfg with h | h
    · rw [assess_row_not_blocked row cfg h] at hgt ⊢
      unfold map_score_to_decision
      rw [if_pos hgt]
    · rw [assess_row_blocked row cfg h]
      rfl
  all_goals
    intro hs
    rw [assess_decision_eq_map row DEFAULT_CONFIG (by rw [hs]; decide), hs]
    decide

/-- C1 counterexample: `rowScore10` reaches a final score of exactly 10, the
default `reject_at`, yet its decision is IN_REVIEW rather than REJECTED. -/
theorem reject_boundary_cex :
    (assess_row rowScore10 DEFAULT_CONFIG).risk_score = 10 ∧
      DEFAULT_CONFIG.score_to_decision.reject_at = 10 ∧
      (assess_row rowScore10 DEFAULT_CONFIG).decision = DECISION_IN_REVIEW ∧
      (assess_row rowScore10 DEFAULT_CONFIG).decision ≠ DECISION_REJECTED := by
  decide

theorem decision_boundary_spec_witness :
    (assess_row rowScenario DEFAULT_CONFIG).decision = DECISION_REJECTED ∧
    (assess_row rowScore10 DEFAULT_CONFIG).decision = DECISION_IN_REVIEW ∧
    (assess_row rowScore9 DEFAULT_CONFIG).decision = DECISION_IN_REVIEW ∧
    (assess_row rowScore4 DEFAULT_CONFIG).decision = DECISION_IN_REVIEW ∧
    (assess_row rowScore3 DEFAULT_CONFIG).decision = DECISION_ACCEPTED :=
  ⟨(decision_boundary_spec rowScenario DEFAULT_CONFIG).1 (by decide),
   (decision_boundary_spec rowScore10 DEFAULT_CONFIG).2.1 (by decide),
   (decision_boundary_spec rowScore9 DEFAULT_CONFIG).2.2.1 (by decide),
   (decision_boundary_spec rowScore4 DEFAULT_CONFIG).2.2.2.1 (by decide),
   (decision_boundary_spec rowScore3 DEFAULT_CONFIG).2.2.2.2 (by decide)⟩

/-- C2: a record with `chargeback_count` at or above the configured hard-block
threshold and case-insensitively "high" `ip_risk` returns immediately with
decision REJECTED, risk score 100 and exactly the single hard-block reason;
no other scoring rule contributes. -/
theorem hard_block_short_circuit (row : Row) (cfg : Config)
    (hcb : safe_int ((row.chargeback_count).getD (vInt 0)) 0 ≥ cfg.chargeback_hard_block)
    (hip : strLower (pyStr ((row.ip_risk).getD (vStr "low"))) = "high") :
    assess_row row cfg =
      { decision := DECISION_REJECTED, risk_score := 100, reasons := [Reason.hardBlock] } ∧
      (assess_row row cfg).reasonsStr = "hard_block:chargebacks>=2+ip_high" := by
  have h : check_chargeback_hard_block row cfg = some hardBlockResult := by
    unfold check_chargeback_hard_block
    rw [if_pos ⟨hcb, hip⟩]
    rfl
  have h2 := assess_row_blocked row cfg h
  exact ⟨h2, by rw [h2]; rfl⟩

theorem hard_block_short_circuit_witness :
    assess_row rowHardBlock DEFAULT_CONFIG =
      { decision := DECISION_REJECTED, risk_score := 100, reasons := [Reason.hardBlock] } ∧
      (assess_row rowHardBlock DEFAULT_CONFIG).reasonsStr = "hard_block:chargebacks>=2+ip_high" :=
  hard_block_short_circuit rowHardBlock DEFAULT_CONFIG (by decide) (by decide)

/-- C4: the scorer is a pure function of (record, configuration): two calls
of `assess_row` on the identical pair yield identical results, component by
component; no state carries between calls. -/
theorem assess_row_deterministic (row : Row) (cfg : Config) :
    assess_row row cfg = assess_row row cfg ∧
      (assess_row row cfg).decision = (assess_row row cfg).decision ∧
      (assess_row row cfg).risk_score = (assess_row row cfg).risk_score ∧
      (assess_row row cfg).reasonsStr = (assess_row row cfg).reasonsStr :=
  ⟨rfl, rfl, rfl, rfl⟩

/-- C8: whenever the hard block fires, under any configuration (any hard-block
threshold N), the reason is the fixed constructor whose rendered text is the
literal "hard_block:chargebacks>=2+ip_high" with 2 hard-coded. -/
theorem hard_block_reason_literal (row : Row) (cfg : Config) (out : AssessResult)
    (h : check_chargeback_hard_block row cfg = some out) :
    out.reasons = [Reason.hardBlock] ∧
      out.reasonsStr = "hard_block:chargebacks>=2+ip_high" := by
  unfold check_chargeback_hard_block at h
  split at h
  · simp only [Option.some.injEq] at h
    subst h
    exact ⟨rfl, rfl⟩
  · cases h

theorem hard_block_reason_literal_witness :
    hardBlockResult.reasons = [Reason.hardBlock] ∧
      hardBlockResult.reasonsStr = "hard_block:chargebacks>=2+ip_high" :=
  hard_block_reason_literal rowChargeback7 cfgHardBlock5 hardBlockResult (by decide)

/-- C9: if the REJECT_AT environment value does not parse as an integer, the
single shared exception handler aborts the whole override block: the REVIEW_AT
override is skipped even when valid, both boundaries keep their prior values,
and loading returns normally. -/
theorem env_override_single_handler (cfg : Config) (s : String) (rev : Option String)
    (h : pyIntOfString? s = none) :
    applyEnvOverrides cfg (some s) rev = cfg := by
  simp only [applyEnvOverrides, h]

theorem env_override_single_handler_witness :
    applyEnvOverrides DEFAULT_CONFIG (some "ten") (some "3") = DEFAULT_CONFIG ∧
      pyIntOfString? "3" = some 3 :=
  ⟨env_override_single_handler DEFAULT_CONFIG "ten" (some "3") (by decide), by decide⟩

lemma count_fb_not_buffer (row : Row) (cfg : Config) :
    ((categorical_score_and_reasons row cfg).2).count Reason.frequencyBuffer = 0 ∧
    ((reputation_score row cfg).2.2.toList).count Reason.frequencyBuffer = 0 ∧
    ((night_score row cfg).2.toList).count Reason.frequencyBuffer = 0 ∧
    ((geo_mismatch_score row cfg).2.toList).count Reason.frequencyBuffer = 0 ∧
    ((amount_score row cfg (resolvedRep row)).2).count Reason.frequencyBuffer = 0 ∧
    ((latency_score row cfg).2.toList).count Reason.frequencyBuffer = 0 := by
  refine ⟨?_, ?_, ?_, ?_, ?_, ?_⟩
  · exact List.count_eq_zero.mpr fun hm => by rcases categorical_shape hm with ⟨f, v, a, -, heq⟩; cases heq
  · exact List.count_eq_zero.mpr fun hm => by rcases reputation_shape hm with ⟨s, a, -, heq⟩; cases heq
  · exact List.count_eq_zero.mpr fun hm => by rcases night_shape hm with ⟨hr, heq⟩; cases heq
  · exact List.count_eq_zero.mpr fun hm => by rcases geo_shape hm with ⟨b, i, heq⟩; cases heq
  · exact List.count_eq_zero.mpr fun hm => by
      rcases amount_shape hm with ⟨p, q, heq⟩ | ⟨-, heq⟩ <;> cases heq
  · exact List.count_eq_zero.mpr fun hm => by rcases latency_shape hm with ⟨l, heq⟩; cases heq

lemma assess_fb_count (row : Row) (cfg : Config) :
    (assessReasonList row cfg).count Reason.frequencyBuffer =
      ((apply_frequency_buffer row (resolvedRep row) (preBufferScore row cfg)).2.toList).count
        Reason.frequencyBuffer := by
  obtain ⟨h1, h2, h3, h4, h5, h6⟩ := count_fb_not_buffer row cfg
  unfold assessReasonList
  simp [List.count_append, h1, h2, h3, h4, h5, h6]

/-- C3: for a non-hard-blocked record, the score drops by exactly 1 and the
frequency-buffer reason appears exactly once precisely when the resolved
reputation tier is recurrent or trusted, `customer_txn_30d ≥ 3`, and the
running score after the six prior steps is strictly positive; otherwise the
score is unchanged and the reason is absent. -/
theorem frequency_buffer_gating (row : Row) (cfg : Config)
    (h : check_chargeback_hard_block row cfg = none) :
    (((resolvedRep row = "recurrent" ∨ resolvedRep row = "trusted") ∧
        safe_int ((row.customer_txn_30d).getD (vInt 0)) 0 ≥ 3 ∧
        preBufferScore row cfg > 0) →
      (assess_row row cfg).risk_score = preBufferScore row cfg - 1 ∧
        (assess_row row cfg).reasons.count Reason.frequencyBuffer = 1) ∧
    (¬ ((resolvedRep row = "recurrent" ∨ resolvedRep row = "trusted") ∧
        safe_int ((row.customer_txn_30d).getD (vInt 0)) 0 ≥ 3 ∧
        preBufferScore row cfg > 0) →
      (assess_row row cfg).risk_score = preBufferScore row cfg ∧
        (assess_row row cfg).reasons.count Reason.frequencyBuffer = 0) := by
  rw [assess_row_not_blocked row cfg h]
  dsimp only
  constructor
  · intro hcond
    have hb : apply_frequency_buffer row (resolvedRep row) (preBufferScore row cfg) =
        (-1, some Reason.frequencyBuffer) := by
      unfold apply_frequency_buffer
      rw [if_pos hcond]
    constructor
    · unfold finalScore
      rw [hb]
      omega
    · rw [assess_fb_count row cfg, hb]
      rfl
  · intro hncond
    have hb : apply_frequency_buffer row (resolvedRep row) (preBufferScore row cfg) =
        (0, none) := by
      unfold apply_frequency_buffer
      rw [if_neg hncond]
    constructor
    · unfold finalScore
      rw [hb]
      omega
    · rw [assess_fb_count row cfg, hb]
      rfl

theorem frequency_buffer_gating_witness :
    ((assess_row rowBuffer DEFAULT_CONFIG).risk_score =
        preBufferScore rowBuffer DEFAULT_CONFIG - 1 ∧
      (assess_row rowBuffer DEFAULT_CONFIG).reasons.count Reason.frequencyBuffer = 1) ∧
    ((assess_row rowScore9 DEFAULT_CONFIG).risk_score =
        preBufferScore rowScore9 DEFAULT_CONFIG ∧
      (assess_row rowScore9 DEFAULT_CONFIG).reasons.count Reason.frequencyBuffer = 0) :=
  ⟨(frequency_buffer_gating rowBuffer DEFAULT_CONFIG (by decide)).1
      ⟨Or.inr (by decide), by decide, by decide⟩,
   (frequency_buffer_gating rowScore9 DEFAULT_CONFIG (by decide)).2
      (by intro hc; exact absurd hc.1 (by decide))⟩

lemma amount_score_new (row : Row) (cfg : Config)
    (hha : high_amount (safe_float ((row.amount_mxn).getD (vFloat 0)) 0)
        (strLower (pyStr ((row.product_type).getD (vStr "_default")))) cfg.amount_thresholds = true)
    (hnew : resolvedRep row = "new") :
    amount_score row cfg (resolvedRep row) =
      (cfg.score_weights.high_amount + cfg.score_weights.new_user_high_amount,
        [Reason.highAmount (strLower (pyStr ((row.product_type).getD (vStr "_default"))))
            (safe_float ((row.amount_mxn).getD (vFloat 0)) 0) cfg.score_weights.high_amount,
          Reason.newUserHighAmount cfg.score_weights.new_user_high_amount]) := by
  simp only [amount_score]
  rw [if_pos hha, if_pos hnew]

lemma amount_score_not_new (row : Row) (cfg : Config)
    (hha : high_amount (safe_float ((row.amount_mxn).getD (vFloat 0)) 0)
        (strLower (pyStr ((row.product_type).getD (vStr "_default")))) cfg.amount_thresholds = true)
    (hnot : resolvedRep row ≠ "new") :
    amount_score row cfg (resolvedRep row) =
      (cfg.score_weights.high_amount,
        [Reason.highAmount (strLower (pyStr ((row.product_type).getD (vStr "_default"))))
            (safe_float ((row.amount_mxn).getD (vFloat 0)) 0) cfg.score_weights.high_amount]) := by
  simp only [amount_score]
  rw [if_pos hha, if_neg hnot]

lemma mem_assess_newUser (row : Row) (cfg : Config) (a : Int) :
    Reason.newUserHighAmount a ∈ assessReasonList row cfg ↔
      Reason.newUserHighAmount a ∈ (amount_score row cfg (resolvedRep row)).2 := by
  unfold assessReasonList
  simp only [List.mem_append]
  constructor
  · rintro ((((((hm | hm) | hm) | hm) | hm) | hm) | hm)
    · rcases categorical_shape hm with ⟨f, v, w, -, heq⟩
      cases heq
    · rcases reputation_shape hm with ⟨s, w, -, heq⟩
      cases heq
    · rcases night_shape hm with ⟨hr, heq⟩
      cases heq
    · rcases geo_shape hm with ⟨b, i, heq⟩
      cases heq
    · exact hm
    · rcases latency_shape hm with ⟨l, heq⟩
      cases heq
    · cases buffer_shape hm
  · intro hm
    exact Or.inl (Or.inl (Or.inr hm))

/-- C5: for a record whose amount reaches its product-type threshold, the
amount step adds the high-amount weight, and stacks the separate
new-user-high-amount weight with its own reason exactly when the resolved
reputation tier is "new"; with reputation "trusted" only the base weight is
added; absent the hard block, the new-user reason appears in the assessment
output exactly when the tier is "new". -/
theorem new_user_amount_stacking (row : Row) (cfg : Config)
    (hha : high_amount (safe_float ((row.amount_mxn).getD (vFloat 0)) 0)
        (strLower (pyStr ((row.product_type).getD (vStr "_default"))))
        cfg.amount_thresholds = true) :
    ((amount_score row cfg (resolvedRep row)).1 =
        cfg.score_weights.high_amount +
          (if resolvedRep row = "new" then cfg.score_weights.new_user_high_amount else 0)) ∧
    ((Reason.newUserHighAmount cfg.score_weights.new_user_high_amount ∈
        (amount_score row cfg (resolvedRep row)).2) ↔ resolvedRep row = "new") ∧
    (resolvedRep row = "trusted" →
      (amount_score row cfg (resolvedRep row)).1 = cfg.score_weights.high_amount) ∧
    (check_chargeback_hard_block row cfg = none →
      ((Reason.newUserHighAmount cfg.score_weights.new_user_high_amount ∈
          (assess_row row cfg).reasons) ↔ resolvedRep row = "new")) := by
  have hiff : (Reason.newUserHighAmount cfg.score_weights.new_user_high_amount ∈
      (amount_score row cfg (resolvedRep row)).2) ↔ resolvedRep row = "new" := by
    by_cases hnew : resolvedRep row = "new"
    · rw [amount_score_new row cfg hha hnew]
      simp [hnew]
    · rw [amount_score_not_new row cfg hha hnew]
      simp [hnew]
  refine ⟨?_, hiff, ?_, ?_⟩
  · by_cases hnew : resolvedRep row = "new"
    · rw [amount_score_new row cfg hha hnew, if_pos hnew]
    · rw [amount_score_not_new row cfg hha hnew, if_neg hnew]
      omega
  · intro ht
    have hnot : resolvedRep row ≠ "new" := by
      rw [ht]
      decide
    rw [amount_score_not_new row cfg hha hnot]
  · intro hchk
    rw [assess_row_not_blocked row cfg hchk]
    dsimp only
    rw [mem_assess_newUser row cfg]
    exact hiff

theorem new_user_amount_stacking_witness :
    ((amount_score rowNewHighAmt DEFAULT_CONFIG (resolvedRep rowNewHighAmt)).1 =
        DEFAULT_CONFIG.score_weights.high_amount +
          (if resolvedRep rowNewHighAmt = "new" then
            DEFAULT_CONFIG.score_weights.new_user_high_amount else 0)) ∧
    ((Reason.newUserHighAmount DEFAULT_CONFIG.score_weights.new_user_high_amount ∈
        (assess_row rowNewHighAmt DEFAULT_CONFIG).reasons) ↔ resolvedRep rowNewHighAmt = "new") ∧
    (amount_score rowTrustedHighAmt DEFAULT_CONFIG (resolvedRep rowTrustedHighAmt)).1 =
      DEFAULT_CONFIG.score_weights.high_amount :=
  ⟨(new_user_amount_stacking rowNewHighAmt DEFAULT_CONFIG (by decide)).1,
   (new_user_amount_stacking rowNewHighAmt DEFAULT_CONFIG (by decide)).2.2.2 (by decide),
   (new_user_amount_stacking rowTrustedHighAmt DEFAULT_CONFIG (by decide)).2.2.1 (by decide)⟩

/-- C6 counterexample: a present but unparseable `hour` is not treated as the
data-model default 12: the row scores 1 (night hour fired at hour 0) while the
identical row with hour 12 scores 0. -/
theorem unparseable_hour_cex :
    rowBadHour.hour = some (vStr "abc") ∧
      pyInt? (vStr "abc") = none ∧
      (assess_row rowBadHour DEFAULT_CONFIG).risk_score = 1 ∧
      (assess_row { rowBadHour with hour := some (vInt 12) } DEFAULT_CONFIG).risk_score = 0 := by
  decide

/-- C6 (amended): a present but unparseable numeric field falls back to the
`safe_int`/`safe_float` default 0 (0.0), which coincides with the data-model
default for every numeric field except `hour`; an unparseable `hour` is
treated as 0 — a night hour — rather than 12, and the row is still scored
without raising. -/
theorem unparseable_numeric_fallback (row : Row) (cfg : Config) (v : PyVal)
    (hvi : pyInt? v = none) (hvf : pyFloat? v = none) (hrow : row.hour = some v) :
    safe_int v 0 = 0 ∧ safe_float v 0 = 0 ∧
      night_score row cfg =
        (cfg.score_weights.night_hour, some (Reason.nightHour 0 cfg.score_weights.night_hour)) := by
  have h0 : safe_int v 0 = 0 := by simp [safe_int, hvi]
  refine ⟨h0, by simp [safe_float, hvf], ?_⟩
  simp only [night_score, hrow, Option.getD_some, h0]
  rw [if_pos (by decide)]

theorem unparseable_numeric_fallback_witness :
    safe_int (vStr "abc") 0 = 0 ∧ safe_float (vStr "abc") 0 = 0 ∧
      night_score rowBadHour DEFAULT_CONFIG =
        (DEFAULT_CONFIG.score_weights.night_hour,
          some (Reason.nightHour 0 DEFAULT_CONFIG.score_weights.night_hour)) :=
  unparseable_numeric_fallback rowBadHour DEFAULT_CONFIG (vStr "abc")
    (by decide) (by decide) (by decide)

/-- C10: for a non-hard-blocked record the returned risk score equals the sum
of the signed deltas carried by its emitted reasons, and under the default
configuration every emitted reason carries a nonzero delta. -/
theorem score_reason_ledger (row : Row) (cfg : Config)
    (h : check_chargeback_hard_block row cfg = none) :
    (assess_row row cfg).risk_score =
        ((assess_row row cfg).reasons.map Reason.delta).sum ∧
      (cfg = DEFAULT_CONFIG → ∀ r ∈ (assess_row row cfg).reasons, Reason.delta r ≠ 0) := by
  rw [assess_row_not_blocked row cfg h]
  dsimp only
  constructor
  · unfold assessReasonList finalScore preBufferScore
    simp only [List.map_append, List.sum_append, categorical_delta, reputation_delta,
      night_delta, geo_delta, amount_delta, latency_delta, buffer_delta]
  · rintro rfl r hr
    unfold assessReasonList at hr
    simp only [List.mem_append] at hr
    rcases hr with (((((hm | hm) | hm) | hm) | hm) | hm) | hm
    · rcases categorical_shape hm with ⟨f, v, a, ha, rfl⟩
      simpa [Reason.delta] using ha
    · rcases reputation_shape hm with ⟨s, a, ha, rfl⟩
      simpa [Reason.delta] using ha
    · rcases night_shape hm with ⟨hrr, rfl⟩
      simp only [Reason.delta]
      decide
    · rcases geo_shape hm with ⟨b, i, rfl⟩
      simp only [Reason.delta]
      decide
    · rcases amount_shape hm with ⟨p, q, rfl⟩ | ⟨-, rfl⟩ <;>
        · simp only [Reason.delta]
          decide
    · rcases latency_shape hm with ⟨l, rfl⟩
      simp only [Reason.delta]
      decide
    · rw [buffer_shape hm]
      decide

theorem score_reason_ledger_witness :
    (assess_row rowScenario DEFAULT_CONFIG).risk_score =
      ((assess_row rowScenario DEFAULT_CONFIG).reasons.map Reason.delta).sum :=
  (score_reason_ledger rowScenario DEFAULT_CONFIG (by decide)).1

lemma buffer_not_elig (row : Row) (rep : String) (score : Int)
    (h1 : rep ≠ "recurrent") (h2 : rep ≠ "trusted") :
    apply_frequency_buffer row rep score = (0, none) := by
  unfold apply_frequency_buffer
  rw [if_neg]
  rintro ⟨h3 | h3, -, -⟩
  exacts [h1 h3, h2 h3]

lemma categorical_one_fst (field : String) (fv : Option PyVal) (m : String → Int) :
    (categorical_one field fv m).1 = m (strLower (pyStr (fv.getD (vStr "low")))) := rfl

lemma default_w_ip_le (s : String) : DEFAULT_CONFIG.score_weights.ip_risk s ≤ 4 := by
  simp only [DEFAULT_CONFIG]
  split_ifs <;> norm_num

lemma default_w_email_le (s : String) : DEFAULT_CONFIG.score_weights.email_risk s ≤ 3 := by
  simp only [DEFAULT_CONFIG]
  split_ifs <;> norm_num

lemma default_w_device_le (s : String) : DEFAULT_CONFIG.score_weights.device_fingerprint_risk s ≤ 4 := by
  simp only [DEFAULT_CONFIG]
  split_ifs <;> norm_num

lemma default_w_rep_le (s : String) : DEFAULT_CONFIG.score_weights.user_reputation s ≤ 4 := by
  simp only [DEFAULT_CONFIG]
  split_ifs <;> norm_num

lemma default_cat_le (row : Row) :
    (categorical_score_and_reasons row DEFAULT_CONFIG).1 ≤ 11 := by
  unfold categorical_score_and_reasons
  dsimp only
  rw [categorical_one_fst, categorical_one_fst, categorical_one_fst]
  have h1 := default_w_ip_le (strLower (pyStr ((row.ip_risk).getD (vStr "low"))))
  have h2 := default_w_email_le (strLower (pyStr ((row.email_risk).getD (vStr "low"))))
  have h3 := default_w_device_le (strLower (pyStr ((row.device_fingerprint_risk).getD (vStr "low"))))
  omega

lemma default_night_le (row : Row) : (night_score row DEFAULT_CONFIG).1 ≤ 1 := by
  simp only [night_score]
  split <;> norm_num [DEFAULT_CONFIG]

lemma default_geo_le (row : Row) : (geo_mismatch_score row DEFAULT_CONFIG).1 ≤ 2 := by
  simp only [geo_mismatch_score]
  split <;> norm_num [DEFAULT_CONFIG]

lemma default_amount_le (row : Row) (rep : String) :
    (amount_score row DEFAULT_CONFIG rep).1 ≤ 4 := by
  simp only [amount_score]
  split
  · split <;> norm_num [DEFAULT_CONFIG]
  · norm_num

lemma default_latency_le (row : Row) : (latency_score row DEFAULT_CONFIG).1 ≤ 2 := by
  simp only [latency_score]
  split <;> norm_num [DEFAULT_CONFIG]

lemma buffer_nonpos (row : Row) (rep : String) (score : Int) :
    (apply_frequency_buffer row rep score).1 ≤ 0 := by
  simp only [apply_frequency_buffer]
  split <;> norm_num

lemma default_finalScore_le (row : Row) : finalScore row DEFAULT_CONFIG ≤ 24 := by
  unfold finalScore preBufferScore
  have h1 := default_cat_le row
  have h2 := default_w_rep_le (strLower (pyStr ((row.user_reputation).getD (vStr "new"))))
  have h2' : (reputation_score row DEFAULT_CONFIG).2.1 =
      DEFAULT_CONFIG.score_weights.user_reputation
        (strLower (pyStr ((row.user_reputation).getD (vStr "new")))) := rfl
  have h3 := default_night_le row
  have h4 := default_geo_le row
  have h5 := default_amount_le row (resolvedRep row)
  have h6 := default_latency_le row
  have h7 := buffer_nonpos row (resolvedRep row) (preBufferScore row DEFAULT_CONFIG)
  unfold preBufferScore at h7
  omega

/-- C7: for a record whose resolved reputation tier is neither recurrent nor
trusted (so the frequency buffer never applies), raising `ip_risk` from "low"
to "high" with every other field fixed, under the default configuration,
never decreases the returned risk score. -/
theorem ip_risk_monotone (row : Row)
    (h1 : resolvedRep row ≠ "recurrent") (h2 : resolvedRep row ≠ "trusted") :
    (assess_row { row with ip_risk := some (vStr "low") } DEFAULT_CONFIG).risk_score ≤
      (assess_row { row with ip_risk := some (vStr "high") } DEFAULT_CONFIG).risk_score := by
  have hrepL : resolvedRep { row with ip_risk := some (vStr "low") } = resolvedRep row := rfl
  have hrepH : resolvedRep { row with ip_risk := some (vStr "high") } = resolvedRep row := rfl
  have hL : check_chargeback_hard_block { row with ip_risk := some (vStr "low") }
      DEFAULT_CONFIG = none := by
    unfold check_chargeback_hard_block
    rw [if_neg]
    rintro ⟨-, hip⟩
    have hip' : strLower (pyStr (vStr "low")) = "high" := hip
    exact absurd hip' (by decide)
  rcases check_hard_block_cases { row with ip_risk := some (vStr "high") } DEFAULT_CONFIG
    with hH | hH
  · rw [assess_row_not_blocked _ _ hL, assess_row_not_blocked _ _ hH]
    dsimp only
    have hbL : apply_frequency_buffer { row with ip_risk := some (vStr "low") }
        (resolvedRep { row with ip_risk := some (vStr "low") })
        (preBufferScore { row with ip_risk := some (vStr "low") } DEFAULT_CONFIG) = (0, none) :=
      buffer_not_elig _ _ _ (hrepL ▸ h1) (hrepL ▸ h2)
    have hbH : apply_frequency_buffer { row with ip_risk := some (vStr "high") }
        (resolvedRep { row with ip_risk := some (vStr "high") })
        (preBufferScore { row with ip_risk := some (vStr "high") } DEFAULT_CONFIG) = (0, none) :=
      buffer_not_elig _ _ _ (hrepH ▸ h1) (hrepH ▸ h2)
    have hn : night_score { row with ip_risk := some (vStr "high") } DEFAULT_CONFIG =
        night_score { row with ip_risk := some (vStr "low") } DEFAULT_CONFIG := rfl
    have hr' : reputation_score { row with ip_risk := some (vStr "high") } DEFAULT_CONFIG =
        reputation_score { row with ip_risk := some (vStr "low") } DEFAULT_CONFIG := rfl
    have hg : geo_mismatch_score { row with ip_risk := some (vStr "high") } DEFAULT_CONFIG =
        geo_mismatch_score { row with ip_risk := some (vStr "low") } DEFAULT_CONFIG := rfl
    have ha : amount_score { row with ip_risk := some (vStr "high") } DEFAULT_CONFIG
          (resolvedRep { row with ip_risk := some (vStr "high") }) =
        amount_score { row with ip_risk := some (vStr "low") } DEFAULT_CONFIG
          (resolvedRep { row with ip_risk := some (vStr "low") }) := rfl
    have hl' : latency_score { row with ip_risk := some (vStr "high") } DEFAULT_CONFIG =
        latency_score { row with ip_risk := some (vStr "low") } DEFAULT_CONFIG := rfl
    have hcatH : (categorical_score_and_reasons { row with ip_risk := some (vStr "high") }
          DEFAULT_CONFIG).1 =
        (categorical_one "email_risk" row.email_risk DEFAULT_CONFIG.score_weights.email_risk).1 +
          (categorical_one "device_fingerprint_risk" row.device_fingerprint_risk
            DEFAULT_CONFIG.score_weights.device_fingerprint_risk).1 + 4 := by
      unfold categorical_score_and_reasons
      dsimp only
      rw [show (categorical_one "ip_risk" (some (vStr "high"))
        DEFAULT_CONFIG.score_weights.ip_risk).1 = 4 by decide]
      omega
    have hcatL : (categorical_score_and_reasons { row with ip_risk := some (vStr "low") }
          DEFAULT_CONFIG).1 =
        (categorical_one "email_risk" row.email_risk DEFAULT_CONFIG.score_weights.email_risk).1 +
          (categorical_one "device_fingerprint_risk" row.device_fingerprint_risk
            DEFAULT_CONFIG.score_weights.device_fingerprint_risk).1 := by
      unfold categorical_score_and_reasons
      dsimp only
      rw [show (categorical_one "ip_risk" (some (vStr "low"))
        DEFAULT_CONFIG.score_weights.ip_risk).1 = 0 by decide]
      omega
    have hpre : preBufferScore { row with ip_risk := some (vStr "high") } DEFAULT_CONFIG =
        preBufferScore { row with ip_risk := some (vStr "low") } DEFAULT_CONFIG + 4 := by
      unfold preBufferScore
      rw [hn, hr', hg, ha, hl', hcatH, hcatL]
      omega
    unfold finalScore
    rw [hbL, hbH, hpre]
    omega
  · rw [assess_row_blocked _ _ hH, assess_row_not_blocked _ _ hL]
    dsimp only [hardBlockResult]
    have hle := default_finalScore_le { row with ip_risk := some (vStr "low") }
    omega

theorem ip_risk_monotone_witness :
    (assess_row { emptyRow with ip_risk := some (vStr "low") } DEFAULT_CONFIG).risk_score ≤
      (assess_row { emptyRow with ip_risk := some (vStr "high") } DEFAULT_CONFIG).risk_score :=
  ip_risk_monotone emptyRow (by decide) (by decide)
